import Mathlib

set_option maxRecDepth 4000

/-!
Verification development for the ESP8266 greenhouse firmware
(`ESP8266_Greenhouse_v3.2.0`): the configuration store (`config.cpp`),
the command pipeline (`commands.cpp`) and the heartbeat / cloud-config
subsystem (`heartbeat.cpp`), shallowly embedded in Lean.

Machine integers are modelled as `Nat` (bytes, `uint8_t`, `uint32_t`)
and `Int` (C `int`), with wrap-around made explicit where the C code
relies on it.  C strings stored in fixed `char[N]` buffers are modelled
as Lean `String`s together with the truncating-copy semantics of
`strncpy(dest, src, N - 1)` (modelled by `strTake · (N - 1)`); the
firmware only ever writes these buffers through zero-filling `strncpy`
on a zero-initialised struct, so every buffer holds its string followed
by zero bytes.
-/

namespace Serra

/-! ## C string helpers -/

/-- The `strncpy(dest, src, n)` truncation: the string kept in a buffer that
receives at most `n` characters of `s`. -/
def strTake (s : String) (n : Nat) : String := ⟨s.data.take n⟩

/-- Pointer arithmetic `s + n` on an ASCII C string: drop the first `n`
characters. -/
def strDrop (s : String) (n : Nat) : String := ⟨s.data.drop n⟩

/-- The `strncmp(s, p, p.length) == 0`: does `s` start with `p`? -/
def strStartsWith (s p : String) : Bool := p.data.isPrefixOf s.data

/-- The `strstr(s, pat) != NULL`: does `pat` occur inside `s`? -/
def strstr (s pat : String) : Bool :=
  (List.range (s.length + 1)).any fun i => pat.data.isPrefixOf (s.data.drop i)

/-- Accumulating digit scan used by `atoi`: consume leading decimal
digits, stop at the first non-digit. -/
def digitsVal : List Char → Nat → Nat
  | c :: cs, acc => if c.isDigit then digitsVal cs (acc * 10 + (c.toNat - 48)) else acc
  | [], acc => acc

/-- C `atoi`: skip leading whitespace, optional sign, then leading
decimal digits; no digits parse to `0`. -/
def atoi (s : String) : Int :=
  let cs := s.data.dropWhile fun c => c = ' ' ∨ c = '\t' ∨ c = '\n' ∨ c = '\r'
  match cs with
  | '-' :: rest => -(digitsVal rest 0 : Int)
  | '+' :: rest => (digitsVal rest 0 : Int)
  | rest => (digitsVal rest 0 : Int)

/-- Conversion of a C `int` to `uint8_t` (reduction modulo 2^8). -/
def toUint8 (v : Int) : Nat := (v % 256).toNat

theorem strTake_eq_of_le (s : String) (n : Nat) (h : s.length ≤ n) :
    strTake s n = s := by
  cases s with
  | mk data =>
    simp only [strTake, String.length] at h ⊢
    exact congrArg String.mk (List.take_of_length_le h)

/-! ## CRC32 (`calculateCRC32`, config.cpp lines 9–18)

The standard reflected CRC-32: register initialised to `0xFFFFFFFF`,
per byte XOR into the low bits followed by eight conditional-XOR
right shifts with polynomial `0xEDB88320`, output complemented. -/

/-- One bit step: `crc = (crc >> 1) ^ ((crc & 1) ? 0xEDB88320 : 0)`. -/
def crcStepBit (crc : Nat) : Nat :=
  (crc >>> 1) ^^^ (if crc &&& 1 = 1 then 0xEDB88320 else 0)

/-- One byte step: `crc ^= byte` then eight bit steps. -/
def crcStepByte (crc b : Nat) : Nat :=
  crcStepBit (crcStepBit (crcStepBit (crcStepBit
    (crcStepBit (crcStepBit (crcStepBit (crcStepBit (crc ^^^ b))))))))

/-- The `calculateCRC32(data, length)`: fold the byte step over the data,
starting from all-ones, and complement the result (`~crc` on a
`uint32_t` is XOR with `0xFFFFFFFF`). -/
def calculateCRC32 (data : List Nat) : Nat :=
  (data.foldl crcStepByte 0xFFFFFFFF) ^^^ 0xFFFFFFFF

/-- Sanity check: the embedding computes the standard reflected CRC-32
(check value 0xCBF43926 on "123456789"). -/
theorem crc32_check_value :
    calculateCRC32 ("123456789".data.map Char.toNat) = 0xCBF43926 := by decide

/-! ## The persisted record (`DeviceConfig`, config.h lines 12–35)

Byte sizes and offsets follow the C struct on the ESP8266 (32-bit,
`int` of 4 bytes aligned to 4): 15 + 33 + 64 + 65 = 177 bytes of
strings, 4 × 34 = 136 bytes of sensor slots (ending at 313), 3 padding
bytes before the 4-byte `config_version` (316..319), 98 bytes of
`WiFiBackup` (320..417), 2 padding bytes before the trailing 4-byte
`crc32` (420..423); `sizeof(DeviceConfig) = 424`.  The global record
lives in zero-initialised memory and every store keeps the padding at
zero, so the padding bytes are modelled as zeros. -/

/-- The `SensorPin` (config.h): pin number, type code
(0=none, 1=DHT22, 2=DHT11, 3=soil_moisture, 4=water_level), name
(`char[32]`). -/
structure SensorPin where
  pin : Nat
  type : Nat
  name : String
deriving DecidableEq

/-- The `WiFiBackup` (config.h): previous SSID/password and validity flag. -/
structure WiFiBackup where
  ssid : String
  password : String
  valid : Bool
deriving DecidableEq

/-- The `DeviceConfig` (config.h): the EEPROM-persisted record. -/
structure DeviceConfig where
  composite_device_id : String
  wifi_ssid : String
  wifi_password : String
  device_key : String
  sensors : List SensorPin
  config_version : Int
  wifi_backup : WiFiBackup
  crc32 : Nat
deriving DecidableEq

/-- Bytes of a `char[size]` buffer written by zero-filling
`strncpy(dest, src, size - 1)` on zero-initialised memory: the string's
characters followed by zero bytes up to `size`. -/
def strFieldBytes (s : String) (size : Nat) : List Nat :=
  let cs := (s.data.map Char.toNat).take (size - 1)
  cs ++ List.replicate (size - cs.length) 0

/-- Little-endian bytes of a 32-bit word. -/
def le4 (n : Nat) : List Nat :=
  [n % 256, n / 256 % 256, n / 65536 % 256, n / 16777216 % 256]

/-- Little-endian bytes of a C `int` (two's complement, 32 bits). -/
def intBytes (v : Int) : List Nat := le4 ((v % 4294967296).toNat)

/-- Bytes of one `SensorPin` (34 bytes, no padding). -/
def sensorBytes (sp : SensorPin) : List Nat :=
  [sp.pin % 256, sp.type % 256] ++ strFieldBytes sp.name 32

/-- Bytes of the `WiFiBackup` member (98 bytes, no padding). -/
def backupBytes (b : WiFiBackup) : List Nat :=
  strFieldBytes b.ssid 33 ++ strFieldBytes b.password 64 ++
  [if b.valid then 1 else 0]

/-- The first `sizeof(DeviceConfig) - sizeof(uint32_t) = 420` bytes of
the in-memory record: every field except the trailing `crc32`, with the
compiler's padding bytes (always zero in this firmware).  This is the
region `calculateCRC32` is applied to in `saveConfig`/`validateConfig`. -/
def configBytes (cfg : DeviceConfig) : List Nat :=
  strFieldBytes cfg.composite_device_id 15 ++
  strFieldBytes cfg.wifi_ssid 33 ++
  strFieldBytes cfg.wifi_password 64 ++
  strFieldBytes cfg.device_key 65 ++
  (cfg.sensors.map sensorBytes).flatten ++
  List.replicate 3 0 ++
  intBytes cfg.config_version ++
  backupBytes cfg.wifi_backup ++
  List.replicate 2 0

/-! ## ConfigStore operations (config.cpp) -/

/-- The record written by `saveConfig` (config.cpp 70–83): the checksum
recomputed over every field except the checksum itself; EEPROM then
receives exactly this record. -/
def saveConfigRecord (cfg : DeviceConfig) : DeviceConfig :=
  { cfg with crc32 := calculateCRC32 (configBytes cfg) }

/-- The `validateConfig` (config.cpp 42–68): checksum re-verification plus
the two structural checks (non-empty device id, non-empty SSID). -/
def validateConfig (cfg : DeviceConfig) : Bool :=
  if calculateCRC32 (configBytes cfg) ≠ cfg.crc32 then false
  else if cfg.composite_device_id.length = 0 then false
  else if cfg.wifi_ssid.length = 0 then false
  else true

/-- Result of a load: the in-memory record and the EEPROM record. -/
structure ConfigIO where
  mem : DeviceConfig
  stored : DeviceConfig
deriving DecidableEq

/-- The `loadConfig` (config.cpp 20–40): read the record at the fixed
offset; if `config_version` is outside `[0, 10000]` reset it to `0` and
`saveConfig` (which recomputes the checksum and rewrites EEPROM). -/
def loadConfig (stored : DeviceConfig) : ConfigIO :=
  if stored.config_version < 0 ∨ stored.config_version > 10000 then
    let repaired := saveConfigRecord { stored with config_version := 0 }
    ⟨repaired, repaired⟩
  else ⟨stored, stored⟩

/-- The all-zero `SensorPin` of a `memset` record. -/
def zeroSensor : SensorPin := ⟨0, 0, ""⟩

/-- The record after `memset(&deviceConfig, 0, sizeof(DeviceConfig))`:
every byte zero. -/
def clearedConfig : DeviceConfig :=
  ⟨"", "", "", "", List.replicate 4 zeroSensor, 0, ⟨"", "", false⟩, 0⟩

/-- The `clearConfig` (config.cpp 85–92): zero the in-memory record and
write it to EEPROM as-is (no checksum recomputation). -/
def clearConfig : ConfigIO := ⟨clearedConfig, clearedConfig⟩

/-! ## Commands (commands.h, commands.cpp) -/

/-- The `CMD_RESET` (commands.h line 9). -/
def CMD_RESET : String := "reset"
/-- The `CMD_WIFI_UPDATE` (commands.h line 10). -/
def CMD_WIFI_UPDATE : String := "wifi_update"
/-- The `CMD_FIRMWARE_UPDATE` (commands.h line 11). -/
def CMD_FIRMWARE_UPDATE : String := "firmware_update"

/-- The `DeviceCommand` (commands.h lines 14–22); the `char[N]` buffers
hold at most `N - 1` characters. -/
structure DeviceCommand where
  id : String
  type : String
  ssid : String
  password : String
  url : String
  version : String
  valid : Bool
deriving DecidableEq

/-- The type-specific fields of the JSON `payload` object of a command
(absent keys are `none`; a missing or null `payload` object has every
field `none`). -/
structure CommandPayload where
  ssid : Option String
  password : Option String
  url : Option String
  version : Option String
deriving DecidableEq

/-- A non-null command JSON object from the heartbeat response. -/
structure CommandJson where
  id : Option String
  type : Option String
  payload : CommandPayload
deriving DecidableEq

/-- The zeroed command `parseCommand` starts from (`memset`,
`valid = false`). -/
def emptyCommand : DeviceCommand := ⟨"", "", "", "", "", "", false⟩

/-- The `parseCommand` (commands.cpp 13–64): reject a null object or one
missing `id` or `type`; copy `id`/`type`; for `wifi_update` copy
`ssid`/`password` from the payload and reject if the SSID buffer is
empty; for `firmware_update` copy `url`/`version` and reject if the URL
buffer is empty; every other type (including unknown ones) is marked
valid with empty payload fields. -/
def parseCommand (cmdJson : Option CommandJson) : DeviceCommand :=
  match cmdJson with
  | none => emptyCommand
  | some j =>
    match j.id, j.type with
    | some id, some ty =>
      let cmd := { emptyCommand with id := strTake id 36, type := strTake ty 19 }
      if ty = CMD_WIFI_UPDATE then
        let cmd := { cmd with
          ssid := strTake (j.payload.ssid.getD "") 32,
          password := strTake (j.payload.password.getD "") 63 }
        if cmd.ssid.length = 0 then cmd else { cmd with valid := true }
      else if ty = CMD_FIRMWARE_UPDATE then
        let cmd := { cmd with
          url := strTake (j.payload.url.getD "") 255,
          version := strTake (j.payload.version.getD "") 15 }
        if cmd.url.length = 0 then cmd else { cmd with valid := true }
      else { cmd with valid := true }
    | _, _ => emptyCommand

/-! ## The device world

Command execution touches, besides the configuration record in RAM and
EEPROM: the WiFi association state, the acknowledgment channel, and the
restart line.  The radio environment is abstracted as a predicate
saying whether a join attempt to a given SSID completes within the
fixed `WIFI_CONNECT_TIMEOUT` (30 s), and whether the platform OTA
primitive succeeds. -/

/-- One acknowledgment POST to `acknowledge_device_command`
(`acknowledgeCommand`, commands.cpp 116–156). -/
structure Ack where
  commandId : String
  success : Bool
  errorMessage : Option String
deriving DecidableEq

/-- The radio/OTA environment. -/
structure WifiEnv where
  /-- Does a `WiFi.begin(ssid, ...)` join attempt reach `WL_CONNECTED`
  within the 30-second polling loop? -/
  joins : String → Bool
  /-- Does `ESPhttpUpdate.update` apply the image (restarting the
  device) rather than fail? -/
  otaSucceeds : Bool

/-- Device state threaded through command execution. -/
structure World where
  /-- The in-memory `deviceConfig` global. -/
  config : DeviceConfig
  /-- The EEPROM copy of the record. -/
  stored : DeviceConfig
  /-- The `WiFi.status() == WL_CONNECTED`, with the associated SSID. -/
  connected : Option String
  env : WifiEnv
  /-- Acknowledgment POSTs attempted, in order. -/
  acks : List Ack
  /-- Has `ESP.restart()` (or the OTA-internal restart) been hit? -/
  restarted : Bool

/-- The `saveConfig` acting on the device: recompute the checksum and write
the record to EEPROM. -/
def saveConfigW (w : World) : World :=
  let c := saveConfigRecord w.config
  { w with config := c, stored := c }

/-- The `backupCurrentWiFi` (config.cpp 145–154): copy the current
credentials into the backup member, mark it valid, save. -/
def backupCurrentWiFi (w : World) : World :=
  saveConfigW { w with config := { w.config with
    wifi_backup := ⟨strTake w.config.wifi_ssid 32,
                    strTake w.config.wifi_password 63, true⟩ } }

/-- The `restoreBackupWiFi` (config.cpp 156–169): if the backup is valid,
copy it over the current credentials and save; otherwise do nothing. -/
def restoreBackupWiFi (w : World) : World :=
  if w.config.wifi_backup.valid then
    saveConfigW { w with config := { w.config with
      wifi_ssid := strTake w.config.wifi_backup.ssid 32,
      wifi_password := strTake w.config.wifi_backup.password 63 } }
  else w

/-- The `acknowledgeCommand` (commands.cpp 116–156): when WiFi is not
connected the function returns without posting; otherwise it POSTs the
command id, success flag and optional error message (the HTTP outcome
is only logged). -/
def acknowledgeCommand (w : World) (commandId : String) (success : Bool)
    (errorMessage : Option String) : World :=
  if w.connected.isSome then
    { w with acks := w.acks ++ [⟨commandId, success, errorMessage⟩] }
  else w

/-- The `updateWiFiCredentials` (commands.cpp 158–235): back up the current
credentials, persist the new ones, disconnect, try the new network for
up to the timeout; on success return true (the backup is deliberately
kept); on failure restore the backup, try the original network for the
same timeout, and return false — restarting the device first if even
the rejoin fails. -/
def updateWiFiCredentials (newSsid newPassword : String) (w : World) :
    Bool × World :=
  let w1 := backupCurrentWiFi w
  let w2 := saveConfigW { w1 with config := { w1.config with
    wifi_ssid := strTake newSsid 32,
    wifi_password := strTake newPassword 63 } }
  let w3 := { w2 with connected := none }
  if w3.env.joins newSsid then
    (true, { w3 with connected := some newSsid })
  else
    let w4 := restoreBackupWiFi w3
    if w4.env.joins w4.config.wifi_ssid then
      (false, { w4 with connected := some w4.config.wifi_ssid })
    else
      (false, { w4 with restarted := true })

/-- The `performOTAUpdate` (commands.cpp 237–288): on success the platform
update primitive restarts the device and control never returns; on any
failure path the function returns false and the old image keeps
running. -/
def performOTAUpdate (w : World) : Bool × World :=
  if w.env.otaSucceeds then (true, { w with restarted := true })
  else (false, w)

/-- The `executeCommand` (commands.cpp 66–114): an invalid command returns
false immediately; `reset` acknowledges success then restarts;
`wifi_update` delegates to `updateWiFiCredentials` and acknowledges
success-then-restart or failure with a rollback reason; a
`firmware_update` failure is acknowledged with "OTA update failed";
an unknown type is acknowledged as "Unknown command type". -/
def executeCommand (cmd : DeviceCommand) (w : World) : Bool × World :=
  if !cmd.valid then (false, w)
  else if cmd.type = CMD_RESET then
    let w1 := acknowledgeCommand w cmd.id true none
    (true, { w1 with restarted := true })
  else if cmd.type = CMD_WIFI_UPDATE then
    match updateWiFiCredentials cmd.ssid cmd.password w with
    | (true, w1) =>
      let w2 := acknowledgeCommand w1 cmd.id true none
      (true, { w2 with restarted := true })
    | (false, w1) =>
      (false, acknowledgeCommand w1 cmd.id false
        (some "WiFi connection failed, restored backup"))
  else if cmd.type = CMD_FIRMWARE_UPDATE then
    match performOTAUpdate w with
    | (true, w1) => (true, w1)
    | (false, w1) =>
      (false, acknowledgeCommand w1 cmd.id false (some "OTA update failed"))
  else
    (false, acknowledgeCommand w cmd.id false (some "Unknown command type"))

/-! ## Sensor config mapping (heartbeat.cpp) -/

/-- The `mapSensorType` (heartbeat.cpp 81–90): substring match on the
database sensor type name. -/
def mapSensorType (dbType : String) : Nat :=
  if strstr dbType "temp" ∨ strstr dbType "humidity" then 1
  else if strstr dbType "soil_moisture" then 3
  else if dbType = "water_level" then 4
  else 0

/-- The Wemos D1 Mini silkscreen-to-GPIO table
(`dPinMap`, heartbeat.cpp line 102). -/
def dPinMap : List Nat := [16, 5, 4, 0, 2, 14, 12, 13, 15, 3, 1]

/-- The ESP8266 Arduino core's `A0` pin constant (17), the board's sole
analog input. -/
def pinA0 : Nat := 17

/-- The `portId[0] == 'D' && isdigit(portId[1])` (a one-character string
reads the terminating zero byte, which is not a digit). -/
def dNameCheck (portId : String) : Bool :=
  match portId.data with
  | c0 :: c1 :: _ => c0 = 'D' ∧ c1.isDigit
  | _ => false

/-- The `parsePortId` (heartbeat.cpp 93–113): `"GPIO<n>"` yields `n`; a
`"D<n>"` name with `n` in the 11-entry table's range `0..10` is
translated through `dPinMap`; the literal `"A0"` yields the analog pin
constant; anything else falls back to `atoi` over the whole token. -/
def parsePortId (portId : String) : Nat :=
  if strStartsWith portId "GPIO" then toUint8 (atoi (strDrop portId 4))
  else if dNameCheck portId ∧ 0 ≤ atoi (strDrop portId 1) ∧
          atoi (strDrop portId 1) ≤ 10 then
    dPinMap.getD (atoi (strDrop portId 1)).toNat 0
  else if portId = "A0" then pinA0
  else toUint8 (atoi portId)

/-! ## Cloud config fetch and apply (heartbeat.cpp 115–208) -/

/-- One element of the JSON array returned by
`get_device_sensor_config`: the `sensor_type` and `port_id` members
(absent or non-string members read as null, i.e. `none`). -/
structure CloudSensorEntry where
  sensor_type : Option String
  port_id : Option String
deriving DecidableEq

/-- The outcome of the HTTP fetch: the WiFi association state, the HTTP
status code, and the body parsed as a JSON array (`none` on a
deserialization error). -/
structure FetchEnv where
  connected : Bool
  httpCode : Int
  parsed : Option (List CloudSensorEntry)

/-- The slot written for one applied cloud entry: type via
`mapSensorType`, pin via `parsePortId`, name truncated to the slot's 31
usable characters. -/
def mkSlot (sensorType portId : String) : SensorPin :=
  ⟨parsePortId portId, mapSensorType sensorType, strTake sensorType 31⟩

/-- The sensor-filling loop of `fetchAndApplyCloudConfig` (heartbeat.cpp
170–201): walk the cloud entries, stop at `MAX_SENSORS` slots, skip
entries missing `sensor_type` or `port_id` and entries naming
"unconfigured", and write each remaining entry into the next slot. -/
def applyLoop : List CloudSensorEntry → Nat → List SensorPin → List SensorPin
  | [], _, slots => slots
  | e :: rest, idx, slots =>
    if 4 ≤ idx then slots
    else
      match e.sensor_type, e.port_id with
      | some t, some p =>
        if t = "unconfigured" then applyLoop rest idx slots
        else applyLoop rest (idx + 1) (slots.set idx (mkSlot t p))
      | _, _ => applyLoop rest idx slots

/-- The `fetchAndApplyCloudConfig` (heartbeat.cpp 115–208): without WiFi,
on a non-200 status or on a JSON parse error, return false leaving the
in-memory and persisted records untouched; otherwise zero all sensor
slots, run the filling loop and `saveConfig`. -/
def fetchAndApplyCloudConfig (env : FetchEnv) (cfg stored : DeviceConfig) :
    Bool × DeviceConfig × DeviceConfig :=
  if !env.connected then (false, cfg, stored)
  else if env.httpCode ≠ 200 then (false, cfg, stored)
  else
    match env.parsed with
    | none => (false, cfg, stored)
    | some configs =>
      let cfg1 := { cfg with
        sensors := applyLoop configs 0 (List.replicate 4 zeroSensor) }
      let saved := saveConfigRecord cfg1
      (true, saved, saved)

/-! ## Helper lemmas -/

/-- The checksummed region does not include the `crc32` field, so
rewriting `crc32` leaves it unchanged. -/
theorem configBytes_set_crc (cfg : DeviceConfig) (x : Nat) :
    configBytes { cfg with crc32 := x } = configBytes cfg := rfl

/-- A record written by `saveConfig` re-verifies: its stored checksum
equals the checksum of its own bytes. -/
theorem crc_of_save (cfg : DeviceConfig) :
    calculateCRC32 (configBytes (saveConfigRecord cfg)) =
      (saveConfigRecord cfg).crc32 := rfl

/-- Validation of a just-saved record reduces to the two structural
checks. -/
theorem validateConfig_save (cfg : DeviceConfig)
    (hid : cfg.composite_device_id.length ≠ 0)
    (hssid : cfg.wifi_ssid.length ≠ 0) :
    validateConfig (saveConfigRecord cfg) = true := by
  unfold validateConfig
  rw [if_neg (by simp [crc_of_save])]
  rw [if_neg (by exact hid), if_neg (by exact hssid)]

/-- Intermediate CRC register states over runs of 60 zero bytes
(the byte pattern of a factory-cleared record). -/
theorem crcZeroChunk1 :
    (List.replicate 60 (0:Nat)).foldl crcStepByte 0xFFFFFFFF = 0xfbed76f7 := by decide

theorem crcZeroChunk2 :
    (List.replicate 60 (0:Nat)).foldl crcStepByte 0xfbed76f7 = 0xc6a285d8 := by decide

theorem crcZeroChunk3 :
    (List.replicate 60 (0:Nat)).foldl crcStepByte 0xc6a285d8 = 0xcab6a401 := by decide

theorem crcZeroChunk4 :
    (List.replicate 60 (0:Nat)).foldl crcStepByte 0xcab6a401 = 0x439edbec := by decide

theorem crcZeroChunk5 :
    (List.replicate 60 (0:Nat)).foldl crcStepByte 0x439edbec = 0x4acb702d := by decide

theorem crcZeroChunk6 :
    (List.replicate 60 (0:Nat)).foldl crcStepByte 0x4acb702d = 0xe8c4b839 := by decide

theorem crcZeroChunk7 :
    (List.replicate 60 (0:Nat)).foldl crcStepByte 0xe8c4b839 = 0xb6d7c8e9 := by decide

/-- A run of 420 zero bytes split into seven runs of 60. -/
theorem replicate420_split : List.replicate 420 (0:Nat) =
    List.replicate 60 0 ++ (List.replicate 60 0 ++ (List.replicate 60 0 ++
    (List.replicate 60 0 ++ (List.replicate 60 0 ++ (List.replicate 60 0 ++
    List.replicate 60 0))))) := by decide

/-- CRC32 of the 420 zero bytes of a factory-cleared record. -/
theorem crc32_zeros420 : calculateCRC32 (List.replicate 420 0) = 0x49283716 := by
  rw [calculateCRC32, replicate420_split]
  rw [List.foldl_append, crcZeroChunk1, List.foldl_append, crcZeroChunk2,
      List.foldl_append, crcZeroChunk3, List.foldl_append, crcZeroChunk4,
      List.foldl_append, crcZeroChunk5, List.foldl_append, crcZeroChunk6,
      crcZeroChunk7]
  decide

/-- The byte image of the factory-cleared record is all zeros. -/
theorem configBytes_cleared : configBytes clearedConfig = List.replicate 420 0 := by
  decide

/-! ## Claims -/

/-- C1: for every configuration record with non-empty device identifier
and WiFi SSID and `config_version` in `[0, 10000]`, `saveConfig`
followed by `loadConfig` yields an in-memory record equal, field by
field, to the saved record, and `validateConfig` accepts the loaded
record. -/
theorem C1_save_load_roundtrip (cfg : DeviceConfig)
    (hid : cfg.composite_device_id.length ≠ 0)
    (hssid : cfg.wifi_ssid.length ≠ 0)
    (hlo : 0 ≤ cfg.config_version) (hhi : cfg.config_version ≤ 10000) :
    loadConfig (saveConfigRecord cfg) =
      ⟨saveConfigRecord cfg, saveConfigRecord cfg⟩ ∧
    validateConfig (loadConfig (saveConfigRecord cfg)).mem = true := by
  have hv : (saveConfigRecord cfg).config_version = cfg.config_version := rfl
  have hload : loadConfig (saveConfigRecord cfg) =
      ⟨saveConfigRecord cfg, saveConfigRecord cfg⟩ := by
    unfold loadConfig
    rw [if_neg]
    rw [hv]
    omega
  refine ⟨hload, ?_⟩
  rw [hload]
  exact validateConfig_save cfg hid hssid

/-- Sample configuration record used to instantiate the theorems. -/
def cfgA : DeviceConfig :=
  { composite_device_id := "PROJ1-ESP5"
    wifi_ssid := "A"
    wifi_password := "a1"
    device_key := ""
    sensors := List.replicate 4 zeroSensor
    config_version := 3
    wifi_backup := ⟨"", "", false⟩
    crc32 := 0 }

/-- Witness for C1 at the concrete record `cfgA`. -/
theorem C1_save_load_roundtrip_witness :
    cfgA.composite_device_id.length ≠ 0 ∧ cfgA.wifi_ssid.length ≠ 0 ∧
    0 ≤ cfgA.config_version ∧ cfgA.config_version ≤ 10000 ∧
    (loadConfig (saveConfigRecord cfgA) =
      ⟨saveConfigRecord cfgA, saveConfigRecord cfgA⟩ ∧
     validateConfig (loadConfig (saveConfigRecord cfgA)).mem = true) :=
  ⟨by decide, by decide, by decide, by decide,
   C1_save_load_roundtrip cfgA (by decide) (by decide) (by decide) (by decide)⟩

/-- C5: a full-config fetch ending in a non-200 HTTP response or a JSON
parse failure returns false and leaves both the in-memory and the
persisted configuration record completely unchanged. -/
theorem C5_fetch_failure_leaves_config (env : FetchEnv)
    (cfg stored : DeviceConfig)
    (h : env.httpCode ≠ 200 ∨ env.parsed = none) :
    fetchAndApplyCloudConfig env cfg stored = (false, cfg, stored) := by
  cases hcn : env.connected with
  | false => simp [fetchAndApplyCloudConfig, hcn]
  | true =>
    rcases h with h | h
    · simp [fetchAndApplyCloudConfig, hcn, h]
    · by_cases hc : env.httpCode = 200
      · simp [fetchAndApplyCloudConfig, hcn, hc, h]
      · simp [fetchAndApplyCloudConfig, hcn, hc]

/-- Witness for C5: a 404 response. -/
theorem C5_fetch_failure_leaves_config_witness :
    ((⟨true, 404, none⟩ : FetchEnv).httpCode ≠ 200 ∨
      (⟨true, 404, none⟩ : FetchEnv).parsed = none) ∧
    fetchAndApplyCloudConfig ⟨true, 404, none⟩ cfgA clearedConfig =
      (false, cfgA, clearedConfig) :=
  ⟨Or.inl (by decide),
   C5_fetch_failure_leaves_config ⟨true, 404, none⟩ cfgA clearedConfig
     (Or.inl (by decide))⟩

/-- C8: a loaded record whose `config_version` is outside `[0, 10000]`
has the version reset to `0` and the repaired record (with recomputed
checksum) persisted; an in-range version is kept unchanged, nothing is
rewritten. -/
theorem C8_load_repairs_version (stored : DeviceConfig) :
    (stored.config_version < 0 ∨ stored.config_version > 10000 →
       loadConfig stored =
         ⟨saveConfigRecord { stored with config_version := 0 },
          saveConfigRecord { stored with config_version := 0 }⟩ ∧
       (loadConfig stored).mem.config_version = 0) ∧
    (0 ≤ stored.config_version → stored.config_version ≤ 10000 →
       loadConfig stored = ⟨stored, stored⟩) := by
  constructor
  · intro h
    have he : loadConfig stored =
        ⟨saveConfigRecord { stored with config_version := 0 },
         saveConfigRecord { stored with config_version := 0 }⟩ := by
      unfold loadConfig
      rw [if_pos h]
    exact ⟨he, by rw [he]; rfl⟩
  · intro h1 h2
    unfold loadConfig
    rw [if_neg]
    omega

/-- Witness for C8: an out-of-range version (20000) is repaired, an
in-range one (`cfgA`, version 3) is left alone. -/
theorem C8_load_repairs_version_witness :
    (({ cfgA with config_version := 20000 } : DeviceConfig).config_version < 0 ∨
      ({ cfgA with config_version := 20000 } : DeviceConfig).config_version > 10000) ∧
    (loadConfig { cfgA with config_version := 20000 } =
       ⟨saveConfigRecord { cfgA with config_version := 0 },
        saveConfigRecord { cfgA with config_version := 0 }⟩ ∧
     (loadConfig { cfgA with config_version := 20000 }).mem.config_version = 0) ∧
    (0 ≤ cfgA.config_version ∧ cfgA.config_version ≤ 10000 ∧
     loadConfig cfgA = ⟨cfgA, cfgA⟩) := by
  refine ⟨Or.inr (by decide), ?_, by decide, by decide,
    (C8_load_repairs_version cfgA).2 (by decide) (by decide)⟩
  have := (C8_load_repairs_version { cfgA with config_version := 20000 }).1
    (Or.inr (by decide))
  simpa using this

/-- C9: `parsePortId` maps "GPIO4" to 4, "D1" to 5 through the 11-entry
board table, the literal "A0" to the board's analog pin constant, and
"D11" (outside the table's 0–10 range) through the `atoi` fallback,
which fails to the default value 0. -/
theorem C9_parsePortId_cases :
    parsePortId "GPIO4" = 4 ∧
    parsePortId "D1" = 5 ∧ dPinMap.length = 11 ∧ dPinMap.getD 1 0 = 5 ∧
    parsePortId "A0" = pinA0 ∧
    parsePortId "D11" = toUint8 (atoi "D11") ∧ parsePortId "D11" = 0 := by
  refine ⟨by decide, by decide, by decide, by decide, by decide, by decide, by decide⟩

/-- C10: the factory-cleared record never validates: its checksum field
is zero, the CRC over its (all-zero) checksummed bytes is nonzero, its
device identifier is empty, and `validateConfig` rejects it. -/
theorem C10_cleared_config_invalid :
    clearConfig.mem = clearedConfig ∧
    clearedConfig.crc32 = 0 ∧
    calculateCRC32 (configBytes clearedConfig) ≠ 0 ∧
    clearedConfig.composite_device_id = "" ∧
    validateConfig clearConfig.mem = false ∧
    validateConfig clearConfig.stored = false := by
  have hcrc : calculateCRC32 (configBytes clearedConfig) = 0x49283716 := by
    rw [configBytes_cleared, crc32_zeros420]
  have hne : calculateCRC32 (configBytes clearedConfig) ≠ 0 := by
    rw [hcrc]; decide
  have hval : validateConfig clearedConfig = false := by
    unfold validateConfig
    rw [if_pos (show calculateCRC32 (configBytes clearedConfig) ≠
      clearedConfig.crc32 from hne)]
  exact ⟨rfl, rfl, hne, rfl, hval, hval⟩

/-- A record with an out-of-range `config_version` (−1). -/
def c2base : DeviceConfig := { cfgA with config_version := -1 }

/-- The record `c2base` stored with a wrong trailing checksum: its
`crc32` field differs (by one) from the CRC of its other fields. -/
def c2bad : DeviceConfig :=
  { c2base with crc32 := calculateCRC32 (configBytes c2base) + 1 }

/-- Counterexample to C2 as stated: a stored record whose trailing
checksum does not match the CRC of its other fields, yet whose loaded
record passes `validateConfig` — because its `config_version` is also
out of range, `loadConfig` "repairs" it and the repair recomputes and
rewrites the checksum, laundering the corrupted record into a valid
one. -/
theorem C2_counterexample :
    calculateCRC32 (configBytes c2bad) ≠ c2bad.crc32 ∧
    validateConfig (loadConfig c2bad).mem = true := by
  constructor
  · have h1 : configBytes c2bad = configBytes c2base := rfl
    have h2 : c2bad.crc32 = calculateCRC32 (configBytes c2base) + 1 := rfl
    rw [h1, h2]
    omega
  · have hload : loadConfig c2bad =
        ⟨saveConfigRecord { c2bad with config_version := 0 },
         saveConfigRecord { c2bad with config_version := 0 }⟩ := by
      unfold loadConfig
      rw [if_pos (Or.inl (by decide))]
    rw [hload]
    exact validateConfig_save _ (by decide) (by decide)

/-- C2 (amended): for every stored record whose `config_version` lies
inside the sane bound `[0, 10000]` and whose trailing checksum does not
match the CRC over the other fields, the loaded record is returned
unrepaired and `validateConfig` rejects it. -/
theorem C2_load_checksum_mismatch_invalid (stored : DeviceConfig)
    (hlo : 0 ≤ stored.config_version) (hhi : stored.config_version ≤ 10000)
    (hcrc : calculateCRC32 (configBytes stored) ≠ stored.crc32) :
    (loadConfig stored).mem = stored ∧
    validateConfig (loadConfig stored).mem = false := by
  have hload : loadConfig stored = ⟨stored, stored⟩ := by
    unfold loadConfig
    rw [if_neg]
    omega
  rw [hload]
  refine ⟨rfl, ?_⟩
  unfold validateConfig
  rw [if_pos hcrc]

/-- Witness for the amended C2 at the factory-cleared record, whose
stored checksum (0) differs from the CRC of its zeroed fields. -/
theorem C2_load_checksum_mismatch_invalid_witness :
    0 ≤ clearedConfig.config_version ∧ clearedConfig.config_version ≤ 10000 ∧
    calculateCRC32 (configBytes clearedConfig) ≠ clearedConfig.crc32 ∧
    ((loadConfig clearedConfig).mem = clearedConfig ∧
     validateConfig (loadConfig clearedConfig).mem = false) := by
  have hcrc : calculateCRC32 (configBytes clearedConfig) ≠ clearedConfig.crc32 := by
    rw [configBytes_cleared, crc32_zeros420]
    decide
  exact ⟨by decide, by decide, hcrc,
    C2_load_checksum_mismatch_invalid clearedConfig (by decide) (by decide) hcrc⟩

/-- A command missing a required field, in the claim's sense: no
identifier, no type, a wifi-update without an SSID, or a
firmware-update without a URL. -/
def missingRequiredField (j : CommandJson) : Prop :=
  j.id = none ∨ j.type = none ∨
  (j.type = some CMD_WIFI_UPDATE ∧
    (j.payload.ssid = none ∨ j.payload.ssid = some "")) ∨
  (j.type = some CMD_FIRMWARE_UPDATE ∧
    (j.payload.url = none ∨ j.payload.url = some ""))

/-- Execution of an invalid command returns false immediately, touching
nothing: no acknowledgment, no configuration change, no restart. -/
theorem exec_invalid_noop (cmd : DeviceCommand) (h : cmd.valid = false)
    (w : World) : executeCommand cmd w = (false, w) := by
  unfold executeCommand
  simp [h]

/-- A wifi-update command whose payload yields an empty SSID buffer is
marked invalid by `parseCommand`. -/
theorem parse_wifi_missing_ssid (id : String) (jpl : CommandPayload)
    (hs : jpl.ssid = none ∨ jpl.ssid = some "") :
    (parseCommand (some ⟨some id, some CMD_WIFI_UPDATE, jpl⟩)).valid = false := by
  rcases hs with hs | hs <;> simp [parseCommand, hs, strTake, emptyCommand]

/-- A firmware-update command whose payload yields an empty URL buffer
is marked invalid by `parseCommand`. -/
theorem parse_fw_missing_url (id : String) (jpl : CommandPayload)
    (hs : jpl.url = none ∨ jpl.url = some "") :
    (parseCommand (some ⟨some id, some CMD_FIRMWARE_UPDATE, jpl⟩)).valid = false := by
  have hne : CMD_FIRMWARE_UPDATE ≠ CMD_WIFI_UPDATE := by decide
  rcases hs with hs | hs <;> simp [parseCommand, hs, strTake, emptyCommand, hne]

/-- C3 (amended): a command missing a required field is marked invalid
by `parseCommand`, and executing it returns failure immediately with no
acknowledgment sent, no retry, and no state change of any kind. -/
theorem C3_invalid_command_rejected_unacknowledged (j : CommandJson)
    (h : missingRequiredField j) (w : World) :
    (parseCommand (some j)).valid = false ∧
    executeCommand (parseCommand (some j)) w = (false, w) := by
  have hvalid : (parseCommand (some j)).valid = false := by
    obtain ⟨jid, jty, jpl⟩ := j
    cases hid : jid with
    | none => simp [parseCommand, emptyCommand]
    | some id =>
      cases hty : jty with
      | none => simp [parseCommand, emptyCommand]
      | some ty =>
        subst hid hty
        rcases h with h | h | ⟨h1, h2⟩ | ⟨h1, h2⟩
        · exact absurd h (by simp)
        · exact absurd h (by simp)
        · obtain rfl : ty = CMD_WIFI_UPDATE := by
            simpa using h1
          exact parse_wifi_missing_ssid id jpl (by simpa using h2)
        · obtain rfl : ty = CMD_FIRMWARE_UPDATE := by
            simpa using h1
          exact parse_fw_missing_url id jpl (by simpa using h2)
  exact ⟨hvalid, exec_invalid_noop _ hvalid w⟩

/-- An incoming wifi-update command JSON without any payload fields. -/
def c3json : CommandJson := ⟨some "cmd-1", some CMD_WIFI_UPDATE, ⟨none, none, none, none⟩⟩

/-- A radio environment in which no join attempt succeeds and OTA
fails. -/
def envNone : WifiEnv := ⟨fun _ => false, false⟩

/-- A connected device world with no acknowledgments sent yet. -/
def c3world : World := ⟨cfgA, cfgA, some "A", envNone, [], false⟩

/-- Counterexample to C3 as stated: the wifi-update command `c3json`
(missing its SSID) is marked invalid, the device is connected and could
acknowledge, yet executing the command sends no failure acknowledgment
at all — the world, including its acknowledgment list, is returned
untouched. -/
theorem C3_counterexample :
    (parseCommand (some c3json)).valid = false ∧
    c3world.connected.isSome = true ∧ c3world.acks = [] ∧
    executeCommand (parseCommand (some c3json)) c3world = (false, c3world) := by
  exact ⟨by decide, rfl, rfl, rfl⟩

/-- Witness for the amended C3 at the SSID-less wifi-update `c3json`. -/
theorem C3_invalid_command_rejected_unacknowledged_witness :
    missingRequiredField c3json ∧
    ((parseCommand (some c3json)).valid = false ∧
     executeCommand (parseCommand (some c3json)) c3world = (false, c3world)) :=
  ⟨Or.inr (Or.inr (Or.inl ⟨rfl, Or.inl rfl⟩)),
   C3_invalid_command_rejected_unacknowledged c3json
     (Or.inr (Or.inr (Or.inl ⟨rfl, Or.inl rfl⟩))) c3world⟩

/-- Saving never changes the stored SSID. -/
theorem save_wifi_ssid (c : DeviceConfig) :
    (saveConfigRecord c).wifi_ssid = c.wifi_ssid := rfl

/-- Saving never changes the stored passphrase. -/
theorem save_wifi_password (c : DeviceConfig) :
    (saveConfigRecord c).wifi_password = c.wifi_password := rfl

/-- Saving never changes the backup member. -/
theorem save_wifi_backup (c : DeviceConfig) :
    (saveConfigRecord c).wifi_backup = c.wifi_backup := rfl

/-- C4: a credential rotation whose new network never becomes reachable
within the timeout, on a device whose rejoin to the original network
succeeds, ends with the original SSID/passphrase back in memory and in
EEPROM, returns failure, acknowledges the command as a failure with the
rollback reason, and does not restart.  (The stored credentials satisfy
their buffer bounds: at most 32 and 63 characters.) -/
theorem C4_wifi_rotation_rollback (cmd : DeviceCommand) (w : World)
    (hvalid : cmd.valid = true) (htype : cmd.type = CMD_WIFI_UPDATE)
    (hslen : w.config.wifi_ssid.length ≤ 32)
    (hplen : w.config.wifi_password.length ≤ 63)
    (hnew : w.env.joins cmd.ssid = false)
    (horig : w.env.joins w.config.wifi_ssid = true) :
    (executeCommand cmd w).1 = false ∧
    (executeCommand cmd w).2.config.wifi_ssid = w.config.wifi_ssid ∧
    (executeCommand cmd w).2.config.wifi_password = w.config.wifi_password ∧
    (executeCommand cmd w).2.stored.wifi_ssid = w.config.wifi_ssid ∧
    (executeCommand cmd w).2.stored.wifi_password = w.config.wifi_password ∧
    (executeCommand cmd w).2.acks = w.acks ++
      [⟨cmd.id, false, some "WiFi connection failed, restored backup"⟩] ∧
    (executeCommand cmd w).2.restarted = w.restarted := by
  have hne : CMD_WIFI_UPDATE ≠ CMD_RESET := by decide
  have hs : strTake w.config.wifi_ssid 32 = w.config.wifi_ssid :=
    strTake_eq_of_le _ _ hslen
  have hp : strTake w.config.wifi_password 63 = w.config.wifi_password :=
    strTake_eq_of_le _ _ hplen
  unfold executeCommand
  simp only [hvalid, htype, hne, Bool.not_true, Bool.false_eq_true, if_false,
    if_neg hne]
  simp [updateWiFiCredentials, backupCurrentWiFi, saveConfigW,
    restoreBackupWiFi, acknowledgeCommand, save_wifi_ssid, save_wifi_password,
    save_wifi_backup, hs, hp, hnew, horig]

/-- A radio environment where only the network "A" is reachable. -/
def envOnlyA : WifiEnv := ⟨fun s => s == "A", false⟩

/-- A device on network "A" with untouched acknowledgment/restart state. -/
def worldOnA (env : WifiEnv) : World := ⟨cfgA, cfgA, some "A", env, [], false⟩

/-- A valid wifi-update command asking to rotate to "B"/"b1". -/
def cmdToB : DeviceCommand := ⟨"cmd-2", CMD_WIFI_UPDATE, "B", "b1", "", "", true⟩

/-- Witness for C4: rotating to the unreachable "B" from "A" rolls back. -/
theorem C4_wifi_rotation_rollback_witness :
    cmdToB.valid = true ∧ cmdToB.type = CMD_WIFI_UPDATE ∧
    (worldOnA envOnlyA).config.wifi_ssid.length ≤ 32 ∧
    (worldOnA envOnlyA).config.wifi_password.length ≤ 63 ∧
    (worldOnA envOnlyA).env.joins cmdToB.ssid = false ∧
    (worldOnA envOnlyA).env.joins (worldOnA envOnlyA).config.wifi_ssid = true ∧
    ((executeCommand cmdToB (worldOnA envOnlyA)).1 = false ∧
     (executeCommand cmdToB (worldOnA envOnlyA)).2.config.wifi_ssid =
       (worldOnA envOnlyA).config.wifi_ssid ∧
     (executeCommand cmdToB (worldOnA envOnlyA)).2.config.wifi_password =
       (worldOnA envOnlyA).config.wifi_password ∧
     (executeCommand cmdToB (worldOnA envOnlyA)).2.stored.wifi_ssid =
       (worldOnA envOnlyA).config.wifi_ssid ∧
     (executeCommand cmdToB (worldOnA envOnlyA)).2.stored.wifi_password =
       (worldOnA envOnlyA).config.wifi_password ∧
     (executeCommand cmdToB (worldOnA envOnlyA)).2.acks =
       (worldOnA envOnlyA).acks ++
         [⟨cmdToB.id, false, some "WiFi connection failed, restored backup"⟩] ∧
     (executeCommand cmdToB (worldOnA envOnlyA)).2.restarted =
       (worldOnA envOnlyA).restarted) :=
  ⟨rfl, rfl, by decide, by decide, by decide, by decide,
   C4_wifi_rotation_rollback cmdToB (worldOnA envOnlyA) rfl rfl
     (by decide) (by decide) (by decide) (by decide)⟩

/-- C6: a credential rotation whose new network becomes reachable within
the timeout returns success with the new SSID stored in memory and
EEPROM, while the WiFi backup record is still marked valid and still
holds the pre-rotation SSID and passphrase — the backup is retained,
not erased.  (The new SSID and the stored credentials satisfy their
buffer bounds.) -/
theorem C6_wifi_rotation_commit_keeps_backup (newSsid newPassword : String)
    (w : World)
    (hnewlen : newSsid.length ≤ 32)
    (hslen : w.config.wifi_ssid.length ≤ 32)
    (hplen : w.config.wifi_password.length ≤ 63)
    (hjoin : w.env.joins newSsid = true) :
    (updateWiFiCredentials newSsid newPassword w).1 = true ∧
    (updateWiFiCredentials newSsid newPassword w).2.config.wifi_ssid = newSsid ∧
    (updateWiFiCredentials newSsid newPassword w).2.stored.wifi_ssid = newSsid ∧
    (updateWiFiCredentials newSsid newPassword w).2.config.wifi_backup =
      ⟨w.config.wifi_ssid, w.config.wifi_password, true⟩ ∧
    (updateWiFiCredentials newSsid newPassword w).2.stored.wifi_backup =
      ⟨w.config.wifi_ssid, w.config.wifi_password, true⟩ := by
  have hn : strTake newSsid 32 = newSsid := strTake_eq_of_le _ _ hnewlen
  have hs : strTake w.config.wifi_ssid 32 = w.config.wifi_ssid :=
    strTake_eq_of_le _ _ hslen
  have hp : strTake w.config.wifi_password 63 = w.config.wifi_password :=
    strTake_eq_of_le _ _ hplen
  simp [updateWiFiCredentials, backupCurrentWiFi, saveConfigW,
    save_wifi_ssid, save_wifi_password, save_wifi_backup, hn, hs, hp, hjoin]

/-- A radio environment where only the network "B" is reachable. -/
def envOnlyB : WifiEnv := ⟨fun s => s == "B", false⟩

/-- Witness for C6: rotating from "A" to the reachable "B" commits and
keeps the backup of "A"/"a1". -/
theorem C6_wifi_rotation_commit_keeps_backup_witness :
    ("B" : String).length ≤ 32 ∧
    (worldOnA envOnlyB).config.wifi_ssid.length ≤ 32 ∧
    (worldOnA envOnlyB).config.wifi_password.length ≤ 63 ∧
    (worldOnA envOnlyB).env.joins "B" = true ∧
    ((updateWiFiCredentials "B" "b1" (worldOnA envOnlyB)).1 = true ∧
     (updateWiFiCredentials "B" "b1" (worldOnA envOnlyB)).2.config.wifi_ssid = "B" ∧
     (updateWiFiCredentials "B" "b1" (worldOnA envOnlyB)).2.stored.wifi_ssid = "B" ∧
     (updateWiFiCredentials "B" "b1" (worldOnA envOnlyB)).2.config.wifi_backup =
       ⟨(worldOnA envOnlyB).config.wifi_ssid,
        (worldOnA envOnlyB).config.wifi_password, true⟩ ∧
     (updateWiFiCredentials "B" "b1" (worldOnA envOnlyB)).2.stored.wifi_backup =
       ⟨(worldOnA envOnlyB).config.wifi_ssid,
        (worldOnA envOnlyB).config.wifi_password, true⟩) :=
  ⟨by decide, by decide, by decide, by decide,
   C6_wifi_rotation_commit_keeps_backup "B" "b1" (worldOnA envOnlyB)
     (by decide) (by decide) (by decide) (by decide)⟩

/-- Which slot, if any, a cloud entry contributes: entries missing a
member and entries naming the sentinel "unconfigured" contribute none
and consume no slot. -/
def eligSlot (e : CloudSensorEntry) : Option SensorPin :=
  match e.sensor_type, e.port_id with
  | some t, some p => if t = "unconfigured" then none else some (mkSlot t p)
  | _, _ => none

/-- Characterization of the sensor-filling loop: starting at slot `idx`
of a 4-slot array, it writes the mapped eligible entries, in order,
into the next `4 - idx` slots and leaves the rest of the array
untouched. -/
theorem applyLoop_eq (entries : List CloudSensorEntry) :
    ∀ (idx : Nat) (slots : List SensorPin), slots.length = 4 →
    applyLoop entries idx slots =
      slots.take idx ++ ((entries.filterMap eligSlot).take (4 - idx)) ++
      slots.drop (idx + ((entries.filterMap eligSlot).take (4 - idx)).length) := by
  induction entries with
  | nil =>
    intro idx slots hlen
    simp [applyLoop]
  | cons e rest ih =>
    intro idx slots hlen
    by_cases hidx : 4 ≤ idx
    · have h0 : 4 - idx = 0 := by omega
      have hts : slots.take idx = slots := List.take_of_length_le (by omega)
      have hds : slots.drop idx = [] := List.drop_eq_nil_of_le (by omega)
      simp [applyLoop, hidx, h0, hts, hds]
    · rcases hst : e.sensor_type with _ | t
      · have hun : applyLoop (e :: rest) idx slots = applyLoop rest idx slots := by
          simp [applyLoop, hidx, hst]
        rw [hun, ih idx slots hlen]
        simp [List.filterMap_cons, eligSlot, hst]
      · rcases hpt : e.port_id with _ | p
        · have hun : applyLoop (e :: rest) idx slots = applyLoop rest idx slots := by
            simp [applyLoop, hidx, hst, hpt]
          rw [hun, ih idx slots hlen]
          simp [List.filterMap_cons, eligSlot, hst, hpt]
        · by_cases ht : t = "unconfigured"
          · have hun : applyLoop (e :: rest) idx slots = applyLoop rest idx slots := by
              simp [applyLoop, hidx, hst, hpt, ht]
            rw [hun, ih idx slots hlen]
            simp [List.filterMap_cons, eligSlot, hst, hpt, ht]
          · have hstep : applyLoop (e :: rest) idx slots =
                applyLoop rest (idx + 1) (slots.set idx (mkSlot t p)) := by
              simp [applyLoop, hidx, hst, hpt, ht]
            have hfm : (e :: rest).filterMap eligSlot =
                mkSlot t p :: rest.filterMap eligSlot := by
              simp [List.filterMap_cons, eligSlot, hst, hpt, ht]
            rw [hstep, ih (idx + 1) _ (by simp [hlen]), hfm]
            have hset : slots.set idx (mkSlot t p) =
                slots.take idx ++ mkSlot t p :: slots.drop (idx + 1) :=
              List.set_eq_take_cons_drop _ (by omega)
            have hlenA : (slots.take idx).length = idx := by
              simp [List.length_take]; omega
            have h4 : 4 - idx = (4 - (idx + 1)) + 1 := by omega
            rw [hset, h4, List.take_succ_cons]
            rw [List.take_append_eq_append_take, hlenA,
                List.take_of_length_le (by omega : (slots.take idx).length ≤ idx + 1)]
            rw [List.drop_append_eq_append_drop, hlenA,
                List.drop_eq_nil_of_le (by omega :
                  (slots.take idx).length ≤
                    idx + 1 + ((rest.filterMap eligSlot).take (4 - (idx + 1))).length)]
            have hn1 : idx + 1 - idx = 1 := by omega
            have hn2 : idx + 1 + ((rest.filterMap eligSlot).take (4 - (idx + 1))).length - idx =
                ((rest.filterMap eligSlot).take (4 - (idx + 1))).length + 1 := by omega
            rw [hn1, hn2]
            simp [List.drop_drop]
            congr 1
            omega


/-- The slot list produced by applying a cloud configuration list: the
mapped eligible entries, at most 4, followed by zeroed slots. -/
def appliedSensors (configs : List CloudSensorEntry) : List SensorPin :=
  (configs.filterMap eligSlot).take 4 ++
    List.replicate (4 - ((configs.filterMap eligSlot).take 4).length) zeroSensor

/-- C7: applying a fetched cloud configuration list clears all existing
slots, assigns slots in order only to eligible entries (the sentinel
"unconfigured" and member-less entries consume no slot), applies at
most the 4-slot capacity with display names truncated to the slot's 31
usable characters (inside `mkSlot`), drops surplus entries while still
returning success, and persists the record — in memory and in EEPROM —
with a checksum that matches its fields. -/
theorem C7_apply_cloud_config (env : FetchEnv) (cfg stored : DeviceConfig)
    (configs : List CloudSensorEntry)
    (hconn : env.connected = true) (hcode : env.httpCode = 200)
    (hparsed : env.parsed = some configs) :
    fetchAndApplyCloudConfig env cfg stored =
      (true, saveConfigRecord { cfg with sensors := appliedSensors configs },
       saveConfigRecord { cfg with sensors := appliedSensors configs }) ∧
    ((configs.filterMap eligSlot).take 4).length ≤ 4 ∧
    (saveConfigRecord { cfg with sensors := appliedSensors configs }).crc32 =
      calculateCRC32 (configBytes
        (saveConfigRecord { cfg with sensors := appliedSensors configs })) := by
  have hloop := applyLoop_eq configs 0 (List.replicate 4 zeroSensor) (by simp)
  simp only [List.take_zero, List.nil_append, Nat.zero_add, Nat.sub_zero,
    List.drop_replicate] at hloop
  refine ⟨?_, by simp [List.length_take], (crc_of_save _).symm⟩
  simp only [fetchAndApplyCloudConfig, hconn, hcode, hparsed, Bool.not_true,
    Bool.false_eq_true, if_false, ne_eq, not_true_eq_false, appliedSensors]
  rw [hloop]

/-- A six-entry cloud configuration list: five eligible entries (one
more than the slot capacity) and one "unconfigured" sentinel. -/
def cloudSix : List CloudSensorEntry :=
  [⟨some "temp_1", some "D1"⟩,
   ⟨some "unconfigured", some "D2"⟩,
   ⟨some "soil_moisture", some "GPIO12"⟩,
   ⟨some "water_level", some "A0"⟩,
   ⟨some "humidity_greenhouse_row_west_wall", some "D5"⟩,
   ⟨some "temp_2", some "D6"⟩]

/-- Witness for C7 on a successful fetch of `cloudSix`. -/
theorem C7_apply_cloud_config_witness :
    (⟨true, 200, some cloudSix⟩ : FetchEnv).connected = true ∧
    (⟨true, 200, some cloudSix⟩ : FetchEnv).httpCode = 200 ∧
    (⟨true, 200, some cloudSix⟩ : FetchEnv).parsed = some cloudSix ∧
    (fetchAndApplyCloudConfig ⟨true, 200, some cloudSix⟩ cfgA clearedConfig =
      (true, saveConfigRecord { cfgA with sensors := appliedSensors cloudSix },
       saveConfigRecord { cfgA with sensors := appliedSensors cloudSix }) ∧
     ((cloudSix.filterMap eligSlot).take 4).length ≤ 4 ∧
     (saveConfigRecord { cfgA with sensors := appliedSensors cloudSix }).crc32 =
       calculateCRC32 (configBytes
         (saveConfigRecord { cfgA with sensors := appliedSensors cloudSix }))) :=
  ⟨rfl, rfl, rfl,
   C7_apply_cloud_config ⟨true, 200, some cloudSix⟩ cfgA clearedConfig
     cloudSix rfl rfl rfl⟩

end Serra
